import Mathlib

/-
Verification of the `CaptchaModule` Lightning module
(src/src/models/captcha_module.py) against its specification.

Modelling choices:
* Tensors are modelled as lists of rationals; all scalar values (loss
  values, accuracy values, metric states) are rationals.
* The Python dict used for the loss record is modelled as an association
  list with Python-dict semantics: inserting an existing key replaces the
  value in place, inserting a new key appends it, and iteration order is
  the list order.
* The external collaborators (the network, the loss functions, the
  optimizer and scheduler factories, and the `DataVisualizer` with its
  `visualize_prediction` and `get_accuracy` methods) are black boxes in
  the source; they appear here as function-valued fields of the module
  state, matching the collaborator interfaces of the spec.
* Calls to the logging sink (`self.log`, `add_figure`, `add_scalar`) are
  modelled as emitted `Event` values; every step handler returns the
  updated module state together with the list of events it emitted.
* Python raises `ZeroDivisionError` on division by zero, so the one
  fallible hook, `on_test_epoch_end`, returns an `Option`.
-/

/-- Tensors are modelled as lists of rational scalars. -/
abbrev Tensor := List ℚ

/-- Opaque handle for an instantiated optimizer. -/
abbrev Optimizer := Nat

/-- Opaque handle for an instantiated learning-rate scheduler. -/
abbrev Scheduler := Nat

/-- Opaque handle for the module's parameter collection. -/
abbrev Params := Nat

/-- Opaque handle for a matplotlib figure produced by the visualizer. -/
abbrev Fig := Nat

/-- A configured loss function: a string tag, a numeric weight, and a
callable taking (prediction, images, labels_encoded). -/
structure LossFn where
  tag : String
  weight : ℚ
  fn : Tensor → Tensor → Tensor → ℚ

/-- The loss record built by `model_step`: a Python dict from loss name to
scalar value, modelled as an association list in insertion order. -/
abbrev LossDict := List (String × ℚ)

/-- Python dict lookup: the value at the first (only) entry with the key. -/
def dictGet (d : LossDict) (k : String) : Option ℚ :=
  match d with
  | [] => none
  | (k', v) :: rest => if k' = k then some v else dictGet rest k

/-- Python dict assignment `d[k] = v`: replace the value of an existing
key in place, otherwise append the new key at the end. -/
def dictInsert (d : LossDict) (k : String) (v : ℚ) : LossDict :=
  match d with
  | [] => [(k, v)]
  | (k', v') :: rest =>
    if k' = k then (k, v) :: rest else (k', v') :: dictInsert rest k v

/-- `torchmetrics.MeanMetric`: running sum and count. -/
structure MeanMetric where
  total : ℚ
  count : Nat
deriving DecidableEq

/-- Default (freshly constructed) state of a `MeanMetric`. -/
def MeanMetric.initial : MeanMetric := { total := 0, count := 0 }

/-- `MeanMetric.reset` restores the default state. -/
def MeanMetric.reset (_ : MeanMetric) : MeanMetric := MeanMetric.initial

/-- `MeanMetric(value)` update call: accumulate the value. -/
def MeanMetric.update (m : MeanMetric) (v : ℚ) : MeanMetric :=
  { total := m.total + v, count := m.count + 1 }

/-- `torchmetrics` multiclass `Accuracy`: class count plus running
correct/total state. -/
structure AccuracyMetric where
  num_classes : Nat
  correct : Nat
  total : Nat
deriving DecidableEq

/-- Freshly constructed accuracy metric for a given number of classes. -/
def AccuracyMetric.initial (n : Nat) : AccuracyMetric :=
  { num_classes := n, correct := 0, total := 0 }

/-- `Accuracy.reset` restores the default state, keeping the class count. -/
def AccuracyMetric.reset (a : AccuracyMetric) : AccuracyMetric :=
  AccuracyMetric.initial a.num_classes

/-- `torchmetrics.MaxMetric`: best value seen so far (none before any
update, matching the -inf default). -/
structure MaxMetric where
  best : Option ℚ
deriving DecidableEq

/-- Default (freshly constructed) state of a `MaxMetric`. -/
def MaxMetric.initial : MaxMetric := { best := none }

/-- `MaxMetric.reset` restores the default state. -/
def MaxMetric.reset (_ : MaxMetric) : MaxMetric := MaxMetric.initial

/-- One call to the logging/metrics sink. `logMetric` is
`self.log(name, value, on_step=..., on_epoch=..., prog_bar=...)`;
`logPlain` is a `self.log(name, value)` call with default flags;
`addFigure` and `addScalar` are the TensorBoard experiment calls. -/
inductive Event where
  | logMetric (name : String) (value : ℚ) (on_step : Bool) (on_epoch : Bool) (prog_bar : Bool)
  | logPlain (name : String) (value : ℚ)
  | addFigure (tag : String) (fig : Fig) (step : Nat)
  | addScalar (tag : String) (value : ℚ) (step : Nat)
deriving DecidableEq

/-- The state of a `CaptchaModule` instance: the hyperparameters stored by
`__init__` (net, optimizer factory, loss functions, scheduler factory,
compile flag), the metric objects, the correct/total counters, and the
ambient framework state (device, global_step) plus the two
`DataVisualizer` methods, each taking the net and device the visualizer
is constructed with. -/
structure CaptchaModule where
  net : Tensor → Tensor
  optimizer : Params → Optimizer
  loss_fns : List LossFn
  scheduler : Option (Optimizer → Scheduler)
  compile : Bool
  num_classes : Nat
  train_acc : AccuracyMetric
  val_acc : AccuracyMetric
  test_acc : AccuracyMetric
  train_loss : MeanMetric
  val_loss : MeanMetric
  test_loss : MeanMetric
  val_acc_best : MaxMetric
  correct_count : Nat
  total_count : Nat
  parameters : Params
  device : String
  global_step : Nat
  visualize_prediction : (Tensor → Tensor) → String → Tensor → Tensor → Fig × ℚ
  get_accuracy : (Tensor → Tensor) → String → Tensor → Tensor → Nat × Nat

/-- `CaptchaModule.__init__`: stores the hyperparameters, creates the
accuracy metrics with `net.num_classes + 1` classes, creates fresh mean
and max metrics, and sets `correct_count = total_count = 0`.
`netNumClasses` stands for the `num_classes` attribute of the network;
`vp` and `ga` are the two `DataVisualizer` methods. -/
def CaptchaModule.init (net : Tensor → Tensor) (netNumClasses : Nat)
    (optimizer : Params → Optimizer) (loss_fns : List LossFn)
    (scheduler : Option (Optimizer → Scheduler)) (compile : Bool)
    (parameters : Params) (device : String)
    (vp : (Tensor → Tensor) → String → Tensor → Tensor → Fig × ℚ)
    (ga : (Tensor → Tensor) → String → Tensor → Tensor → Nat × Nat) :
    CaptchaModule where
  net := net
  optimizer := optimizer
  loss_fns := loss_fns
  scheduler := scheduler
  compile := compile
  num_classes := netNumClasses + 1
  train_acc := AccuracyMetric.initial (netNumClasses + 1)
  val_acc := AccuracyMetric.initial (netNumClasses + 1)
  test_acc := AccuracyMetric.initial (netNumClasses + 1)
  train_loss := MeanMetric.initial
  val_loss := MeanMetric.initial
  test_loss := MeanMetric.initial
  val_acc_best := MaxMetric.initial
  correct_count := 0
  total_count := 0
  parameters := parameters
  device := device
  global_step := 0
  visualize_prediction := vp
  get_accuracy := ga

/-- `on_train_start`: resets `val_loss`, `val_acc` and `val_acc_best`. -/
def CaptchaModule.on_train_start (m : CaptchaModule) : CaptchaModule :=
  { m with
    val_loss := m.val_loss.reset
    val_acc := m.val_acc.reset
    val_acc_best := m.val_acc_best.reset }

/-- One iteration of the loss loop in `model_step`:
`losses[loss_fn.tag] = loss_fn(...)` followed by
`losses["total_loss"] += losses[loss_fn.tag] * loss_fn.weight`, both
reads taken from the dict after the first assignment. -/
def lossStep (prediction images labels_encoded : Tensor) (d : LossDict)
    (loss_fn : LossFn) : LossDict :=
  let d1 := dictInsert d loss_fn.tag (loss_fn.fn prediction images labels_encoded)
  dictInsert d1 "total_loss"
    ((dictGet d1 "total_loss").getD 0 + (dictGet d1 loss_fn.tag).getD 0 * loss_fn.weight)

/-- `model_step`: forward pass, then the loss dict built from
`losses["total_loss"] = 0.0` by one `lossStep` per configured loss
function; returns (losses, prediction, images, labels_encoded). -/
def CaptchaModule.model_step (m : CaptchaModule) (batch : Tensor × Tensor) :
    LossDict × Tensor × Tensor × Tensor :=
  let images := batch.1
  let labels_encoded := batch.2
  let prediction := m.net images
  let losses := m.loss_fns.foldl (lossStep prediction images labels_encoded)
    (dictInsert [] "total_loss" 0)
  (losses, prediction, images, labels_encoded)

/-- `losses.get("total_loss")` as the scalar fed to the mean metrics;
the key is always present, `getD 0` only discharges the `Option`. -/
def totalOf (d : LossDict) : ℚ := (dictGet d "total_loss").getD 0

/-- The loss-logging loop shared by the three step handlers:
`self.log(stage ++ loss_name, loss_value, on_step=False, on_epoch=True,
prog_bar=True)` for every entry of the loss dict, in dict order. -/
def lossLogEvents (stage : String) (d : LossDict) : List Event :=
  d.map (fun p => Event.logMetric (stage ++ p.1) p.2 false true true)

/-- `training_step`: runs `model_step`, updates `train_loss`, logs every
loss entry under `train/...`, and returns `losses.get("total_loss")`. -/
def CaptchaModule.training_step (m : CaptchaModule) (batch : Tensor × Tensor)
    (_batch_idx : Nat) : CaptchaModule × List Event × Option ℚ :=
  let r := m.model_step batch
  let losses := r.1
  let m1 := { m with train_loss := m.train_loss.update (totalOf losses) }
  (m1, lossLogEvents "train/" losses, dictGet losses "total_loss")

/-- `validation_step`: runs `model_step`, updates `val_loss`, logs every
loss entry under `val/...`; on every 100th batch additionally constructs
a `DataVisualizer`, calls `visualize_prediction`, and emits the figure,
the raw scalar, and the `val/Accuracy` log. -/
def CaptchaModule.validation_step (m : CaptchaModule) (batch : Tensor × Tensor)
    (batch_idx : Nat) : CaptchaModule × List Event :=
  let r := m.model_step batch
  let losses := r.1
  let images := r.2.2.1
  let labels_encoded := r.2.2.2
  let m1 := { m with val_loss := m.val_loss.update (totalOf losses) }
  if batch_idx % 100 = 0 then
    let va := m.visualize_prediction m.net m.device images labels_encoded
    (m1, lossLogEvents "val/" losses ++
      [Event.addFigure "Predicted_Images" va.1 m.global_step,
       Event.addScalar "Accuracy" va.2 m.global_step,
       Event.logMetric "val/Accuracy" va.2 false true true])
  else
    (m1, lossLogEvents "val/" losses)

/-- `test_step`: runs `model_step`, overwrites `correct_count` and
`total_count` with the pair returned by the visualizer's `get_accuracy`,
updates `test_loss`, and logs every loss entry under `test/...`. -/
def CaptchaModule.test_step (m : CaptchaModule) (batch : Tensor × Tensor)
    (_batch_idx : Nat) : CaptchaModule × List Event :=
  let r := m.model_step batch
  let losses := r.1
  let images := r.2.2.1
  let labels_encoded := r.2.2.2
  let ct := m.get_accuracy m.net m.device images labels_encoded
  let m1 := { m with
    correct_count := ct.1
    total_count := ct.2
    test_loss := m.test_loss.update (totalOf losses) }
  (m1, lossLogEvents "test/" losses)

/-- A sequence of test steps: fold `test_step` over a list of batches,
keeping only the module state. -/
def runTestSteps (m : CaptchaModule) (batches : List (Tensor × Tensor)) :
    CaptchaModule :=
  batches.foldl (fun st b => (st.test_step b 0).1) m

/-- `on_test_epoch_end`: computes
`accuracy = correct_count / total_count * 100` and logs it under
"Test Dataset Accuracy". Division by zero raises in Python, hence the
`Option` result. -/
def CaptchaModule.on_test_epoch_end (m : CaptchaModule) : Option (List Event) :=
  if m.total_count = 0 then none
  else some [Event.logPlain "Test Dataset Accuracy"
    ((m.correct_count : ℚ) / (m.total_count : ℚ) * 100)]

/-- `setup(stage)`: replaces the net with `torch.compile(self.net)` when
the compile flag is set and the stage is "fit". `compileFn` models
`torch.compile`. -/
def CaptchaModule.setup (compileFn : (Tensor → Tensor) → Tensor → Tensor)
    (m : CaptchaModule) (stage : String) : CaptchaModule :=
  if m.compile && (stage == "fit") then { m with net := compileFn m.net } else m

/-- The `lr_scheduler` sub-dictionary of `configure_optimizers`. -/
structure LRSchedulerDict where
  scheduler : Scheduler
  monitor : String
  interval : String
  frequency : Nat
deriving DecidableEq

/-- The dictionary returned by `configure_optimizers`: always an
`optimizer` key, and an `lr_scheduler` key exactly when present. -/
structure OptimizerDict where
  optimizer : Optimizer
  lr_scheduler : Option LRSchedulerDict
deriving DecidableEq

/-- `configure_optimizers`: instantiates the optimizer on the module's
parameters; when a scheduler factory is present, instantiates it on the
optimizer and returns the full dict, otherwise only the optimizer. -/
def CaptchaModule.configure_optimizers (m : CaptchaModule) : OptimizerDict :=
  let optimizer := m.optimizer m.parameters
  match m.scheduler with
  | some sf =>
    { optimizer := optimizer
      lr_scheduler := some
        { scheduler := sf optimizer
          monitor := "val/total_loss"
          interval := "epoch"
          frequency := 1 } }
  | none => { optimizer := optimizer, lr_scheduler := none }

/-- The spec's description of the total loss, written from its words:
the sum over the configured loss functions of (weight of the function
times the value it returns on (prediction, images, labels_encoded)). -/
def specWeightedSum (fns : List LossFn)
    (prediction images labels_encoded : Tensor) : ℚ :=
  (fns.map (fun f => f.weight * f.fn prediction images labels_encoded)).sum

/-- Visualization-block events: the figure and raw-scalar emissions that
only the `batch_idx % 100 == 0` branch of `validation_step` produces. -/
def isVisual : Event → Bool
  | Event.addFigure _ _ _ => true
  | Event.addScalar _ _ _ => true
  | _ => false

/-- Identity network used for concrete instances. -/
def wNet : Tensor → Tensor := fun t => t

/-- Concrete visualizer method returning a fixed figure and accuracy. -/
def wVis : (Tensor → Tensor) → String → Tensor → Tensor → Fig × ℚ :=
  fun _ _ _ _ => (0, 0)

/-- Concrete `get_accuracy` returning 45 correct out of 50. -/
def wAcc : (Tensor → Tensor) → String → Tensor → Tensor → Nat × Nat :=
  fun _ _ _ _ => (45, 50)

/-- A concrete freshly initialised module with no loss functions and no
scheduler factory. -/
def baseModule : CaptchaModule :=
  CaptchaModule.init wNet 9 (fun _ => 0) [] none false 0 "cpu" wVis wAcc

/-- Loss function `loss_a` with weight 1/2, always returning 1. -/
def lossA : LossFn := { tag := "loss_a", weight := 1/2, fn := fun _ _ _ => 1 }

/-- Loss function `loss_b` with weight 2, always returning 3. -/
def lossB : LossFn := { tag := "loss_b", weight := 2, fn := fun _ _ _ => 3 }

/-- Module with the spec's example pair of weighted loss functions. -/
def wModuleC1 : CaptchaModule := { baseModule with loss_fns := [lossA, lossB] }

/-- Two loss functions sharing the tag "dup": weight 1 value 1, and
weight 2 value 3. -/
def dup1 : LossFn := { tag := "dup", weight := 1, fn := fun _ _ _ => 1 }

/-- Second loss function with the shared tag "dup". -/
def dup2 : LossFn := { tag := "dup", weight := 2, fn := fun _ _ _ => 3 }

/-- Module whose two loss functions share a tag. -/
def wModuleC10 : CaptchaModule := { baseModule with loss_fns := [dup1, dup2] }

/-- Module whose stored test counters are 45 correct of 50 total. -/
def wModuleC2 : CaptchaModule :=
  { baseModule with correct_count := 45, total_count := 50 }

/-- Module with a scheduler factory supplied. -/
def wModuleC4s : CaptchaModule :=
  { baseModule with scheduler := some (fun o => o + 1) }

/-- A loss function whose tag is the reserved dict key "total_loss". -/
def clashLoss1 : LossFn := { tag := "total_loss", weight := 2, fn := fun _ _ _ => 1 }

/-- Module holding `clashLoss1` only. -/
def cexModuleC1 : CaptchaModule := { baseModule with loss_fns := [clashLoss1] }

/-- A second tag-clashing loss function, with weight 3. -/
def clashLoss2 : LossFn := { tag := "total_loss", weight := 3, fn := fun _ _ _ => 1 }

/-- Module holding `clashLoss2` only. -/
def cexModuleC10 : CaptchaModule := { baseModule with loss_fns := [clashLoss2] }

lemma dictGet_insert_self (d : LossDict) (k : String) (v : ℚ) :
    dictGet (dictInsert d k v) k = some v := by
  induction d with
  | nil => simp [dictInsert, dictGet]
  | cons hd tl ih =>
    obtain ⟨k', v'⟩ := hd
    by_cases h : k' = k
    · simp [dictInsert, dictGet, h]
    · simp [dictInsert, dictGet, h, ih]

lemma dictGet_insert_other (d : LossDict) (k k' : String) (v : ℚ)
    (h : k' ≠ k) : dictGet (dictInsert d k v) k' = dictGet d k' := by
  induction d with
  | nil => simp [dictInsert, dictGet, Ne.symm h]
  | cons hd tl ih =>
    obtain ⟨k0, v0⟩ := hd
    by_cases h0 : k0 = k
    · subst h0
      simp [dictInsert, dictGet, Ne.symm h]
    · by_cases h1 : k0 = k'
      · subst h1
        simp [dictInsert, dictGet, h0]
      · simp [dictInsert, dictGet, h0, h1, ih]

lemma foldl_lossStep_total (fns : List LossFn) (pred im lab : Tensor) :
    ∀ (d : LossDict) (t : ℚ), (∀ f ∈ fns, f.tag ≠ "total_loss") →
      dictGet d "total_loss" = some t →
      dictGet (fns.foldl (lossStep pred im lab) d) "total_loss" =
        some (t + specWeightedSum fns pred im lab) := by
  induction fns with
  | nil =>
    intro d t _ hd
    simpa [specWeightedSum] using hd
  | cons f rest ih =>
    intro d t hfns hd
    have hf : f.tag ≠ "total_loss" := hfns f (List.mem_cons_self f rest)
    have hrest : ∀ g ∈ rest, g.tag ≠ "total_loss" :=
      fun g hg => hfns g (List.mem_cons_of_mem f hg)
    rw [List.foldl_cons]
    have hd1tot :
        dictGet (dictInsert d f.tag (f.fn pred im lab)) "total_loss" = some t := by
      rw [dictGet_insert_other _ _ _ _ (Ne.symm hf)]
      exact hd
    have hd1tag :
        dictGet (dictInsert d f.tag (f.fn pred im lab)) f.tag =
          some (f.fn pred im lab) :=
      dictGet_insert_self _ _ _
    have hstep :
        dictGet (lossStep pred im lab d f) "total_loss" =
          some (t + f.fn pred im lab * f.weight) := by
      simp only [lossStep]
      rw [hd1tot, hd1tag]
      simpa using dictGet_insert_self _ "total_loss" _
    rw [ih _ _ hrest hstep]
    congr 1
    simp [specWeightedSum]
    ring

lemma foldl_lossStep_tag (fns : List LossFn) (pred im lab : Tensor)
    (tag : String) (htag : tag ≠ "total_loss") :
    ∀ d : LossDict,
      dictGet (fns.foldl (lossStep pred im lab) d) tag =
        fns.foldl
          (fun acc f => if f.tag = tag then some (f.fn pred im lab) else acc)
          (dictGet d tag) := by
  induction fns with
  | nil => intro d; rfl
  | cons f rest ih =>
    intro d
    rw [List.foldl_cons, List.foldl_cons, ih]
    congr 1
    unfold lossStep
    rw [dictGet_insert_other _ _ _ _ htag]
    by_cases h : f.tag = tag
    · subst h
      simp [dictGet_insert_self]
    · rw [dictGet_insert_other _ _ _ _ (fun e => h e.symm)]
      simp [h]

lemma lossLogEvents_no_visual (stage : String) (d : LossDict) :
    (lossLogEvents stage d).any isVisual = false := by
  induction d with
  | nil => rfl
  | cons hd tl ih => simp [lossLogEvents, isVisual] at ih ⊢; exact ih

lemma runTestSteps_frame (bs : List (Tensor × Tensor)) :
    ∀ m : CaptchaModule,
      (runTestSteps m bs).net = m.net ∧
      (runTestSteps m bs).device = m.device ∧
      (runTestSteps m bs).get_accuracy = m.get_accuracy := by
  induction bs with
  | nil => intro m; exact ⟨rfl, rfl, rfl⟩
  | cons b rest ih =>
    intro m
    have h := ih (m.test_step b 0).1
    exact h

lemma model_step_losses (m : CaptchaModule) (batch : Tensor × Tensor) :
    (m.model_step batch).1 =
      m.loss_fns.foldl (lossStep (m.net batch.1) batch.1 batch.2)
        (dictInsert [] "total_loss" 0) := rfl

lemma test_step_counters (m : CaptchaModule) (b : Tensor × Tensor) (i : Nat) :
    (m.test_step b i).1.correct_count = (m.get_accuracy m.net m.device b.1 b.2).1 ∧
    (m.test_step b i).1.total_count = (m.get_accuracy m.net m.device b.1 b.2).2 :=
  ⟨rfl, rfl⟩

/-- C1 (amended): for every batch and every list of loss functions none of
whose tags is the reserved dict key "total_loss", the loss record returned
by `model_step` maps `total_loss` to the sum over the configured loss
functions of (weight times the value returned on (prediction, images,
labels_encoded)); in particular an empty loss-function list yields
`total_loss = 0`. -/
theorem c1_total_loss_weighted_sum (m : CaptchaModule) (batch : Tensor × Tensor)
    (h : ∀ f ∈ m.loss_fns, f.tag ≠ "total_loss") :
    dictGet (m.model_step batch).1 "total_loss" =
      some (specWeightedSum m.loss_fns (m.net batch.1) batch.1 batch.2) ∧
    (m.loss_fns = [] → dictGet (m.model_step batch).1 "total_loss" = some 0) := by
  have hbase : dictGet (dictInsert [] "total_loss" 0) "total_loss" = some 0 := rfl
  have h1 := foldl_lossStep_total m.loss_fns (m.net batch.1) batch.1 batch.2 _ 0 h hbase
  rw [zero_add] at h1
  constructor
  · rw [model_step_losses]
    exact h1
  · intro he
    rw [model_step_losses, he]
    exact hbase

/-- C1 counterexample: with a single loss function whose tag is
"total_loss" (weight 2, value 1), the `total_loss` entry is 3 while the
weighted sum of the configured loss functions is 2, so the claim as
stated fails. -/
theorem c1_counterexample :
    dictGet (cexModuleC1.model_step ([0], [0])).1 "total_loss" ≠
      some (specWeightedSum cexModuleC1.loss_fns (cexModuleC1.net [0]) [0] [0]) := by
  have hL : dictGet (cexModuleC1.model_step ([0], [0])).1 "total_loss" = some 3 := by
    norm_num [CaptchaModule.model_step, cexModuleC1, baseModule, CaptchaModule.init,
      clashLoss1, lossStep, dictInsert, dictGet]
  have hR : specWeightedSum cexModuleC1.loss_fns (cexModuleC1.net [0]) [0] [0] = 2 := by
    norm_num [specWeightedSum, cexModuleC1, baseModule, CaptchaModule.init, clashLoss1]
  rw [hL, hR]
  simp

/-- C1 witness: with weights 1/2 and 2 on losses of value 1 and 3, the
`total_loss` entry is 1/2*1 + 2*3 = 13/2. -/
theorem c1_witness :
    dictGet (wModuleC1.model_step ([1], [2])).1 "total_loss" = some (13/2) :=
  ((c1_total_loss_weighted_sum wModuleC1 ([1], [2]) (by decide)).1).trans
    (by norm_num [specWeightedSum, wModuleC1, baseModule, CaptchaModule.init, lossA, lossB])

/-- C2: when the stored `total_count` is non-zero, `on_test_epoch_end`
logs under "Test Dataset Accuracy" exactly the value
`100 * correct_count / total_count`. -/
theorem c2_test_epoch_end_accuracy (m : CaptchaModule) (h : m.total_count ≠ 0) :
    m.on_test_epoch_end =
      some [Event.logPlain "Test Dataset Accuracy"
        (100 * (m.correct_count : ℚ) / (m.total_count : ℚ))] := by
  unfold CaptchaModule.on_test_epoch_end
  rw [if_neg h]
  have harith : (m.correct_count : ℚ) / (m.total_count : ℚ) * 100 =
      100 * (m.correct_count : ℚ) / (m.total_count : ℚ) := by ring
  rw [harith]

/-- C2 witness: correct=45, total=50 logs the value 90. -/
theorem c2_witness :
    wModuleC2.on_test_epoch_end =
      some [Event.logPlain "Test Dataset Accuracy" 90] :=
  (c2_test_epoch_end_accuracy wModuleC2 (by decide)).trans
    (by norm_num [wModuleC2, baseModule, CaptchaModule.init])

/-- C3: `test_step` overwrites `correct_count` and `total_count` with
exactly the pair returned by the visualizer's `get_accuracy` on that
batch, regardless of their previous values, and after any sequence of
test steps the counters hold only the final batch's values. -/
theorem c3_test_step_overwrites_counters (m : CaptchaModule)
    (b : Tensor × Tensor) (i : Nat) (bs : List (Tensor × Tensor)) :
    (m.test_step b i).1.correct_count = (m.get_accuracy m.net m.device b.1 b.2).1 ∧
    (m.test_step b i).1.total_count = (m.get_accuracy m.net m.device b.1 b.2).2 ∧
    (runTestSteps m (bs ++ [b])).correct_count = (m.get_accuracy m.net m.device b.1 b.2).1 ∧
    (runTestSteps m (bs ++ [b])).total_count = (m.get_accuracy m.net m.device b.1 b.2).2 := by
  have hfold : runTestSteps m (bs ++ [b]) = ((runTestSteps m bs).test_step b 0).1 := by
    unfold runTestSteps
    rw [List.foldl_append]
    rfl
  obtain ⟨hnet, hdev, hga⟩ := runTestSteps_frame bs m
  refine ⟨rfl, rfl, ?_, ?_⟩
  · rw [hfold, (test_step_counters _ b 0).1, hga, hnet, hdev]
  · rw [hfold, (test_step_counters _ b 0).2, hga, hnet, hdev]

/-- C4: `configure_optimizers` returns only the optimizer entry when no
scheduler factory is supplied; with a factory it additionally returns the
`lr_scheduler` entry monitoring "val/total_loss" at interval "epoch" with
frequency 1. -/
theorem c4_configure_optimizers (m : CaptchaModule) :
    (m.scheduler = none →
      m.configure_optimizers =
        { optimizer := m.optimizer m.parameters, lr_scheduler := none }) ∧
    (∀ sf, m.scheduler = some sf →
      m.configure_optimizers =
        { optimizer := m.optimizer m.parameters
          lr_scheduler := some
            { scheduler := sf (m.optimizer m.parameters)
              monitor := "val/total_loss"
              interval := "epoch"
              frequency := 1 } }) := by
  constructor
  · intro h
    simp [CaptchaModule.configure_optimizers, h]
  · intro sf h
    simp [CaptchaModule.configure_optimizers, h]

/-- C4 witness: a module without a scheduler factory yields only the
optimizer; one with a factory yields the full scheduler entry. -/
theorem c4_witness :
    baseModule.configure_optimizers = { optimizer := 0, lr_scheduler := none } ∧
    wModuleC4s.configure_optimizers =
      { optimizer := 0
        lr_scheduler := some
          { scheduler := 1
            monitor := "val/total_loss"
            interval := "epoch"
            frequency := 1 } } :=
  ⟨((c4_configure_optimizers baseModule).1 rfl).trans (by decide),
   ((c4_configure_optimizers wModuleC4s).2 (fun o => o + 1) rfl).trans (by decide)⟩

/-- C5: the events emitted by `validation_step` are the per-loss logs
followed, exactly when `batch_idx % 100 = 0`, by the visualizer figure,
the raw accuracy scalar, and the "val/Accuracy" log; equivalently a
visualization event occurs iff `batch_idx % 100 = 0`. -/
theorem c5_validation_visualization_cadence (m : CaptchaModule)
    (b : Tensor × Tensor) (i : Nat) :
    (m.validation_step b i).2 =
      lossLogEvents "val/" (m.model_step b).1 ++
        (if i % 100 = 0 then
          [Event.addFigure "Predicted_Images"
              (m.visualize_prediction m.net m.device b.1 b.2).1 m.global_step,
           Event.addScalar "Accuracy"
              (m.visualize_prediction m.net m.device b.1 b.2).2 m.global_step,
           Event.logMetric "val/Accuracy"
              (m.visualize_prediction m.net m.device b.1 b.2).2 false true true]
        else []) ∧
    ((m.validation_step b i).2.any isVisual = true ↔ i % 100 = 0) := by
  have hstruct : (m.validation_step b i).2 =
      lossLogEvents "val/" (m.model_step b).1 ++
        (if i % 100 = 0 then
          [Event.addFigure "Predicted_Images"
              (m.visualize_prediction m.net m.device b.1 b.2).1 m.global_step,
           Event.addScalar "Accuracy"
              (m.visualize_prediction m.net m.device b.1 b.2).2 m.global_step,
           Event.logMetric "val/Accuracy"
              (m.visualize_prediction m.net m.device b.1 b.2).2 false true true]
        else []) := by
    by_cases h : i % 100 = 0
    · simp only [CaptchaModule.validation_step, if_pos h]
      rfl
    · simp only [CaptchaModule.validation_step, if_neg h, List.append_nil]
  refine ⟨hstruct, ?_⟩
  rw [hstruct]
  by_cases h : i % 100 = 0
  · simp [h, List.any_append, isVisual]
  · simp [h, List.any_append, lossLogEvents_no_visual]

/-- C6: every entry of the loss record (each named loss and total_loss)
is logged by each step handler under its stage prefix with on_step=False
and on_epoch=True; for train and test the emitted events are exactly
those logs. -/
theorem c6_stage_prefixed_epoch_logging (m : CaptchaModule)
    (b : Tensor × Tensor) (i : Nat) :
    (m.training_step b i).2.1 = lossLogEvents "train/" (m.model_step b).1 ∧
    (m.test_step b i).2 = lossLogEvents "test/" (m.model_step b).1 ∧
    ∀ p ∈ (m.model_step b).1,
      Event.logMetric ("train/" ++ p.1) p.2 false true true ∈ (m.training_step b i).2.1 ∧
      Event.logMetric ("val/" ++ p.1) p.2 false true true ∈ (m.validation_step b i).2 ∧
      Event.logMetric ("test/" ++ p.1) p.2 false true true ∈ (m.test_step b i).2 := by
  refine ⟨rfl, rfl, ?_⟩
  intro p hp
  refine ⟨List.mem_map_of_mem _ hp, ?_, List.mem_map_of_mem _ hp⟩
  show _ ∈ (m.validation_step b i).2
  unfold CaptchaModule.validation_step
  by_cases h : i % 100 = 0
  · simp only [if_pos h]
    exact List.mem_append_left _ (List.mem_map_of_mem _ hp)
  · simp only [if_neg h]
    exact List.mem_map_of_mem _ hp

/-- C6 witness: on a module with no loss functions, the `total_loss`
entry is logged as "val/total_loss" by `validation_step`. -/
theorem c6_witness :
    Event.logMetric ("val/" ++ "total_loss") 0 false true true ∈
      (baseModule.validation_step ([0], [0]) 0).2 :=
  ((c6_stage_prefixed_epoch_logging baseModule ([0], [0]) 0).2.2
    ("total_loss", 0) (by decide)).2.1

/-- C7: `on_train_start` resets the running loss mean (`val_loss`), the
running accuracy (`val_acc`) and the best-accuracy-so-far
(`val_acc_best`) to their freshly constructed states. -/
theorem c7_on_train_start_resets (m : CaptchaModule) :
    (m.on_train_start).val_loss = MeanMetric.initial ∧
    (m.on_train_start).val_acc = AccuracyMetric.initial m.val_acc.num_classes ∧
    (m.on_train_start).val_acc_best = MaxMetric.initial :=
  ⟨rfl, rfl, rfl⟩

/-- C8: `setup` replaces the net with its compiled version exactly when
the compile flag is set and the stage is "fit"; in every other case the
module (including the net reference) is unchanged. -/
theorem c8_setup_compiles_only_on_fit
    (compileFn : (Tensor → Tensor) → Tensor → Tensor)
    (m : CaptchaModule) (stage : String) :
    CaptchaModule.setup compileFn m stage =
      if m.compile = true ∧ stage = "fit" then { m with net := compileFn m.net }
      else m := by
  cases hc : m.compile with
  | false => simp [CaptchaModule.setup, hc]
  | true =>
    by_cases h2 : stage = "fit"
    · simp [CaptchaModule.setup, hc, h2]
    · simp [CaptchaModule.setup, hc, h2]

/-- C9: freshly constructed modules have both counters equal to 0, and
`on_test_epoch_end` fails with a division by zero (returns none) exactly
when the stored `total_count` is 0; so the division is safe only under
the precondition that `total_count` is non-zero. -/
theorem c9_test_epoch_end_division_guard :
    (∀ net nc optF fns schedF cmp par dev vp ga,
      (CaptchaModule.init net nc optF fns schedF cmp par dev vp ga).correct_count = 0 ∧
      (CaptchaModule.init net nc optF fns schedF cmp par dev vp ga).total_count = 0 ∧
      (CaptchaModule.init net nc optF fns schedF cmp par dev vp ga).on_test_epoch_end = none) ∧
    (∀ m : CaptchaModule, (m.on_test_epoch_end = none ↔ m.total_count = 0)) := by
  constructor
  · intro net nc optF fns schedF cmp par dev vp ga
    exact ⟨rfl, rfl, rfl⟩
  · intro m
    unfold CaptchaModule.on_test_epoch_end
    by_cases h : m.total_count = 0
    · simp [h]
    · simp [h]

/-- C10 (amended): for every list of loss functions none of whose tags is
"total_loss", the loss record maps each tag to the value of the last
loss function carrying that tag (earlier duplicates are overwritten),
while `total_loss` is the weighted sum over the entire list, overwritten
entries included. -/
theorem c10_duplicate_tags (m : CaptchaModule) (batch : Tensor × Tensor)
    (tag : String) (h : ∀ f ∈ m.loss_fns, f.tag ≠ "total_loss")
    (htag : tag ≠ "total_loss") :
    dictGet (m.model_step batch).1 tag =
      m.loss_fns.foldl
        (fun acc f =>
          if f.tag = tag then some (f.fn (m.net batch.1) batch.1 batch.2) else acc)
        none ∧
    dictGet (m.model_step batch).1 "total_loss" =
      some (specWeightedSum m.loss_fns (m.net batch.1) batch.1 batch.2) := by
  constructor
  · rw [model_step_losses,
      foldl_lossStep_tag m.loss_fns (m.net batch.1) batch.1 batch.2 tag htag]
    have hbase : dictGet (dictInsert [] "total_loss" 0) tag = none := by
      simp [dictInsert, dictGet, Ne.symm htag]
    rw [hbase]
  · have hbase : dictGet (dictInsert [] "total_loss" 0) "total_loss" = some 0 := rfl
    have h1 := foldl_lossStep_total m.loss_fns (m.net batch.1) batch.1 batch.2 _ 0 h hbase
    rw [zero_add] at h1
    rw [model_step_losses]
    exact h1

/-- C10 counterexample: a single loss function tagged "total_loss"
(weight 3, value 1) makes the `total_loss` entry 4 while the weighted sum
over the list is 3, refuting the unamended universal statement. -/
theorem c10_counterexample :
    dictGet (cexModuleC10.model_step ([0], [0])).1 "total_loss" ≠
      some (specWeightedSum cexModuleC10.loss_fns (cexModuleC10.net [0]) [0] [0]) := by
  have hL : dictGet (cexModuleC10.model_step ([0], [0])).1 "total_loss" = some 4 := by
    norm_num [CaptchaModule.model_step, cexModuleC10, baseModule, CaptchaModule.init,
      clashLoss2, lossStep, dictInsert, dictGet]
  have hR : specWeightedSum cexModuleC10.loss_fns (cexModuleC10.net [0]) [0] [0] = 3 := by
    norm_num [specWeightedSum, cexModuleC10, baseModule, CaptchaModule.init, clashLoss2]
  rw [hL, hR]
  simp

/-- C10 witness: two loss functions sharing tag "dup" (weight 1 value 1,
weight 2 value 3): the record maps "dup" to the last value 3 while
total_loss = 1*1 + 2*3 = 7. -/
theorem c10_witness :
    dictGet (wModuleC10.model_step ([0], [0])).1 "dup" = some 3 ∧
    dictGet (wModuleC10.model_step ([0], [0])).1 "total_loss" = some 7 := by
  have h := c10_duplicate_tags wModuleC10 ([0], [0]) "dup" (by decide) (by decide)
  refine ⟨h.1.trans ?_, h.2.trans ?_⟩
  · norm_num [wModuleC10, baseModule, CaptchaModule.init, dup1, dup2]
  · norm_num [specWeightedSum, wModuleC10, baseModule, CaptchaModule.init, dup1, dup2]
